import Mathlib

/-!
Verification of the optional_reference library.

The repository is a single-header C++ utility: `dl::optional_reference<T>` wraps one raw
pointer `T* m_ptr` with optional-like semantics. Two variants exist in the sources: the
extended one in src/optional_reference.hpp (raw-pointer construction, const conversion,
ptr accessor) and a minimal one in src/unnamed/part_000.

Shallow embedding conventions:
- an object address is a natural number (`Addr`); a raw pointer is `Option Addr`, with
  `none` standing for the null pointer. The address of a live object (what
  `std::addressof(reference)` yields) is always `some a`.
- a C++ reference is identified by the address of its referent, so operations returning
  `T&` are embedded as returning that address; reading the referenced object goes through
  an explicit heap `Addr → T`.
- `throw bad_optional_reference_access()` is embedded with `Except`.
- const-qualification of the referent (`optional_reference<T>` versus
  `optional_reference<const T>`) is a phantom `Bool` index on the wrapper type.
-/

namespace dl

/-- An object address. Addresses of live objects are modelled as natural numbers. -/
abbrev Addr := Nat

/-- A raw pointer value `T*`: either the null pointer (`none`) or an object address. -/
abbrev Ptr := Option Addr

/-- Program memory: the object of type `T` stored at each address. -/
abbrev Heap (T : Type) := Addr → T

/-- Empty tag type used to indicate an optional_reference with an uninitialized state
(src/optional_reference.hpp line 32; the minimal variant declares the identical type). -/
inductive nullref_t where
  | mk
deriving DecidableEq

/-- Constant of type nullref_t (src/optional_reference.hpp line 35). -/
def nullref : nullref_t := nullref_t.mk

/-- Exception type thrown by optional_reference.ref when accessing an empty
optional_reference (src/optional_reference.hpp lines 39-50; the minimal variant declares
the identical type). -/
inductive bad_optional_reference_access where
  | mk
deriving DecidableEq

/-- The extended optional_reference (src/optional_reference.hpp lines 54-128). It stores a
single raw pointer `m_ptr` (line 126). The phantom index `c` records whether the referent
type is const-qualified: `optional_reference false` embeds `optional_reference<T>` and
`optional_reference true` embeds `optional_reference<const T>`. -/
structure optional_reference (c : Bool) where
  m_ptr : Ptr
deriving DecidableEq

variable {c : Bool}

/-- Default constructor (hpp lines 59-60): stores the null pointer. -/
def optional_reference.mkDefault (c : Bool) : optional_reference c := ⟨none⟩

/-- Constructor from nullref_t (hpp lines 63-64): stores the null pointer. -/
def optional_reference.mkNullref (c : Bool) (_ : nullref_t) : optional_reference c := ⟨none⟩

/-- Constructor from a reference (hpp lines 67-68): stores `std::addressof(reference)`,
which for a live referent at address `a` is the non-null pointer `some a`. -/
def optional_reference.mkRef (c : Bool) (a : Addr) : optional_reference c := ⟨some a⟩

/-- Constructor from a raw pointer (hpp lines 71-72): stores the pointer unchanged. -/
def optional_reference.mkPtr (c : Bool) (p : Ptr) : optional_reference c := ⟨p⟩

/-- The const conversion operator AS WRITTEN (hpp lines 76-78). The body is
`return optional_reference<const T>(this);` — it hands `this`, the address of the wrapper
object itself, to the const-variant constructor, instead of the stored pointer `m_ptr`.
In C++ the call is ill-formed whenever instantiated, because no constructor of
`optional_reference<const T>` accepts a `const optional_reference<T>*`; reading the
pointer through anyway, the result would store the address at which the wrapper itself
lives (`self`, always non-null), not the stored pointer. -/
def optional_reference.constConvAsWritten (_ : optional_reference false) (self : Addr) :
    optional_reference true :=
  optional_reference.mkPtr true (some self)

/-- Conversion to bool (hpp lines 82-84): the truth value of the stored pointer. -/
def optional_reference.toBool (w : optional_reference c) : Bool := w.m_ptr.isSome

/-- has_ref (hpp lines 87-89): the truth value of the stored pointer. -/
def optional_reference.has_ref (w : optional_reference c) : Bool := w.m_ptr.isSome

/-- The internal assertion `assert(m_ptr)` in the unchecked dereference (hpp line 96). -/
def optional_reference.starAssert (w : optional_reference c) : Bool := w.m_ptr.isSome

/-- Unchecked dereference (hpp lines 95-98): returns the contained reference, identified
by its address. On a null stored pointer there is no referent (`none`): dereferencing the
null pointer, undefined behavior in C++. -/
def optional_reference.star (w : optional_reference c) : Ptr := w.m_ptr

/-- Reading the referenced object through the reference returned by the unchecked
dereference (hpp lines 95-98), given the program memory. -/
def optional_reference.starRead {T : Type} (w : optional_reference c) (h : Heap T) :
    Option T :=
  w.m_ptr.map h

/-- Checked access ref (hpp lines 102-105): throws bad_optional_reference_access when the
stored pointer is null, otherwise returns the contained reference (its address). -/
def optional_reference.ref (w : optional_reference c) :
    Except bad_optional_reference_access Addr :=
  match w.m_ptr with
  | none => Except.error bad_optional_reference_access.mk
  | some a => Except.ok a

/-- ref (hpp lines 102-105) with the whole program state threaded through explicitly: ref
is a const member function that only reads `m_ptr` and writes nothing, so the wrapper and
the memory are returned as they came in. -/
def optional_reference.refRun {T : Type} (w : optional_reference c) (h : Heap T) :
    Except bad_optional_reference_access Addr × optional_reference c × Heap T :=
  match w.m_ptr with
  | none => (Except.error bad_optional_reference_access.mk, w, h)
  | some a => (Except.ok a, w, h)

/-- The internal assertion `assert(m_ptr)` in the arrow operator (hpp line 110). -/
def optional_reference.arrowAssert (w : optional_reference c) : Bool := w.m_ptr.isSome

/-- Arrow operator (hpp lines 109-112): returns the stored pointer. -/
def optional_reference.arrow (w : optional_reference c) : Ptr := w.m_ptr

/-- ptr (hpp lines 115-117): returns the stored pointer without any validation. -/
def optional_reference.ptr (w : optional_reference c) : Ptr := w.m_ptr

/-- reset (hpp lines 121-123): stores the null pointer. -/
def optional_reference.reset (_ : optional_reference c) : optional_reference c := ⟨none⟩

/-- opt_ref (hpp lines 132-135): builds an optional_reference holding the passed
reference, preserving the const-qualification `c` of the referent type. -/
def opt_ref (c : Bool) (a : Addr) : optional_reference c := optional_reference.mkRef c a

/-- opt_cref (hpp lines 138-141): builds the read-only variant from a reference to an
object at address `a`; the parameter type `const T&` accepts both mutable and const
referents. -/
def opt_cref (a : Addr) : optional_reference true := optional_reference.mkRef true a

namespace minimal

/-- The minimal optional_reference variant (src/unnamed/part_000 lines 66-131). It stores
the same single raw pointer `m_ptr` (line 129). The tag and exception types it declares
are character-identical to the extended ones, so the outer models are reused. -/
structure optional_reference (c : Bool) where
  m_ptr : Ptr
deriving DecidableEq

/-- Default constructor (part_000 lines 71-72): stores the null pointer. -/
def optional_reference.mkDefault (c : Bool) : optional_reference c := ⟨none⟩

/-- Constructor from nullref_t (part_000 lines 75-76): stores the null pointer. -/
def optional_reference.mkNullref (c : Bool) (_ : nullref_t) : optional_reference c :=
  ⟨none⟩

/-- Constructor from a reference (part_000 lines 80-81): stores
`std::addressof(reference)`, always non-null. -/
def optional_reference.mkRef (c : Bool) (a : Addr) : optional_reference c := ⟨some a⟩

/-- Explicit conversion to bool (part_000 lines 85-87): the truth value of the stored
pointer. The extended variant declares the same conversion without `explicit`; once
invoked, both compute the same value. -/
def optional_reference.toBool (w : optional_reference c) : Bool := w.m_ptr.isSome

/-- has_ref (part_000 lines 90-92): the truth value of the stored pointer. -/
def optional_reference.has_ref (w : optional_reference c) : Bool := w.m_ptr.isSome

/-- The debug assertion `assert(m_ptr)` in the unchecked dereference (part_000 line 100). -/
def optional_reference.starAssert (w : optional_reference c) : Bool := w.m_ptr.isSome

/-- Unchecked dereference (part_000 lines 98-103): returns the contained reference,
identified by its address; `none` on a null stored pointer. -/
def optional_reference.star (w : optional_reference c) : Ptr := w.m_ptr

/-- Checked access ref (part_000 lines 108-111): throws bad_optional_reference_access
when the stored pointer is null, otherwise returns the contained reference. -/
def optional_reference.ref (w : optional_reference c) :
    Except bad_optional_reference_access Addr :=
  match w.m_ptr with
  | none => Except.error bad_optional_reference_access.mk
  | some a => Except.ok a

/-- The debug assertion `assert(m_ptr)` in the arrow operator (part_000 line 117). -/
def optional_reference.arrowAssert (w : optional_reference c) : Bool := w.m_ptr.isSome

/-- Arrow operator (part_000 lines 115-120): returns the stored pointer. -/
def optional_reference.arrow (w : optional_reference c) : Ptr := w.m_ptr

/-- reset (part_000 lines 124-126): the BODY assigns the null pointer to `m_ptr`. Note
the declaration is `constexpr void reset() const noexcept` — the `const` qualifier makes
that assignment ill-formed C++, so this member cannot compile when called; the definition
here embeds the written body, which is also what the doc comment on it promises. -/
def optional_reference.reset (_ : optional_reference c) : optional_reference c := ⟨none⟩

end minimal

/-- C1: the const-widening conversion operator, as written in the source, does NOT yield a
wrapper with the same presence and referent: it passes `this` — the (always non-null)
address of the wrapper itself — to the const-variant constructor instead of the stored
pointer. Evaluated here at a wrapper living at address 5: an absent wrapper converts to a
present one, and a wrapper bound to address 7 converts to one bound to address 5. -/
theorem constConv_as_written_diverges :
    (optional_reference.mkDefault false).has_ref = false ∧
    ((optional_reference.mkDefault false).constConvAsWritten 5).has_ref = true ∧
    (optional_reference.mkRef false 7).ptr = some 7 ∧
    ((optional_reference.mkRef false 7).constConvAsWritten 5).ptr = some 5 ∧
    ((optional_reference.mkRef false 7).constConvAsWritten 5).ptr ≠
      (optional_reference.mkRef false 7).ptr := by
  refine ⟨rfl, rfl, rfl, rfl, ?_⟩
  decide

/-- C2: running ref on any wrapper raises bad_optional_reference_access exactly when the
wrapper is absent; it succeeds exactly when the wrapper is present; and in every case the
stored pointer of the wrapper and the rest of program memory come back unchanged. -/
theorem ref_raises_iff_absent (c : Bool) (w : optional_reference c) (T : Type)
    (h : Heap T) :
    ((w.refRun h).1 = Except.error bad_optional_reference_access.mk ↔
      w.has_ref = false) ∧
    ((w.refRun h).1.isOk = w.has_ref) ∧
    (w.refRun h).2.1 = w ∧ (w.refRun h).2.2 = h := by
  obtain ⟨p⟩ := w
  cases p <;>
    simp [optional_reference.refRun, optional_reference.has_ref, Except.isOk, Except.toBool]

/-- C3: a wrapper constructed from a reference to the object at address `a` reports
present, and both checked access (ref) and unchecked access (the dereference operator)
return a reference with exactly the identity `a`; construction is a total function with
no failure mode. -/
theorem fromRef_present_and_identity (c : Bool) (a : Addr) :
    (optional_reference.mkRef c a).has_ref = true ∧
    (optional_reference.mkRef c a).ref = Except.ok a ∧
    (optional_reference.mkRef c a).star = some a :=
  ⟨rfl, rfl, rfl⟩

/-- C4: on every operation the two variants share, the extended wrapper and the minimal
wrapper holding the same stored pointer compute identical results — same presence (bool
conversion and has_ref), same returned reference (unchecked dereference, checked ref,
arrow), same assertions, and the reset bodies store the same null pointer; the three
shared constructors also store identical pointers. (The minimal reset as declared is
const-qualified and therefore ill-formed when called; compared here is its written body.) -/
theorem variants_shared_ops_agree (c : Bool) (p : Ptr) (a : Addr) :
    (minimal.optional_reference.mkDefault c).m_ptr =
      (optional_reference.mkDefault c).m_ptr ∧
    (minimal.optional_reference.mkNullref c nullref).m_ptr =
      (optional_reference.mkNullref c nullref).m_ptr ∧
    (minimal.optional_reference.mkRef c a).m_ptr =
      (optional_reference.mkRef c a).m_ptr ∧
    (minimal.optional_reference.mk p : minimal.optional_reference c).toBool =
      (optional_reference.mk p : optional_reference c).toBool ∧
    (minimal.optional_reference.mk p : minimal.optional_reference c).has_ref =
      (optional_reference.mk p : optional_reference c).has_ref ∧
    (minimal.optional_reference.mk p : minimal.optional_reference c).star =
      (optional_reference.mk p : optional_reference c).star ∧
    (minimal.optional_reference.mk p : minimal.optional_reference c).starAssert =
      (optional_reference.mk p : optional_reference c).starAssert ∧
    (minimal.optional_reference.mk p : minimal.optional_reference c).ref =
      (optional_reference.mk p : optional_reference c).ref ∧
    (minimal.optional_reference.mk p : minimal.optional_reference c).arrow =
      (optional_reference.mk p : optional_reference c).arrow ∧
    (minimal.optional_reference.mk p : minimal.optional_reference c).arrowAssert =
      (optional_reference.mk p : optional_reference c).arrowAssert ∧
    (minimal.optional_reference.mk p : minimal.optional_reference c).reset.m_ptr =
      (optional_reference.mk p : optional_reference c).reset.m_ptr :=
  ⟨rfl, rfl, rfl, rfl, rfl, rfl, rfl, rfl, rfl, rfl, rfl⟩

/-- C5: after reset any wrapper reports absent; reset of an already-absent wrapper leaves
it exactly as it was; reset is a total function with no failure mode. -/
theorem reset_makes_absent (c : Bool) (w : optional_reference c) :
    w.reset.has_ref = false ∧ (w.has_ref = false → w.reset = w) := by
  constructor
  · rfl
  · intro hw
    obtain ⟨p⟩ := w
    cases p with
    | none => rfl
    | some a => simp [optional_reference.has_ref] at hw

/-- Witness for C5 at the concrete absent wrapper built from nullref. -/
theorem reset_makes_absent_witness :
    (optional_reference.mkNullref false nullref).reset.has_ref = false ∧
    ((optional_reference.mkNullref false nullref).has_ref = false →
      (optional_reference.mkNullref false nullref).reset =
        optional_reference.mkNullref false nullref) :=
  reset_makes_absent false (optional_reference.mkNullref false nullref)

/-- C6: a wrapper constructed from a raw pointer `p` reports present exactly when `p` is
not the null pointer. -/
theorem fromPtr_present_iff_nonnull (c : Bool) (p : Ptr) :
    (optional_reference.mkPtr c p).has_ref = p.isSome ∧
    ((optional_reference.mkPtr c p).has_ref = true ↔ p ≠ none) := by
  refine ⟨rfl, ?_⟩
  simp [optional_reference.mkPtr, optional_reference.has_ref, Option.isSome_iff_ne_none]

/-- C7: opt_ref applied to the object at address `a` is exactly the wrapper constructed
directly from the reference (equal as values, hence identical on every observable
operation), and opt_cref always produces the read-only variant — its result type is
`optional_reference true` whatever the const-qualification `c` of the input — present and
bound to `a`; both helpers are total functions of their argument. -/
theorem factories_spec (c : Bool) (a : Addr) :
    opt_ref c a = optional_reference.mkRef c a ∧
    opt_cref a = optional_reference.mkRef true a ∧
    (opt_cref a).has_ref = true ∧
    (opt_cref a).ptr = some a :=
  ⟨rfl, rfl, rfl, rfl⟩

/-- C8: under the precondition that the wrapper is present, there is an address `a` such
that the stored pointer is `some a`, the unchecked dereference returns the reference with
identity `a` and reads the referenced value from memory, the arrow operator returns the
address `some a`, both internal assertions on the stored pointer hold, and no error
signal is raised (even the checked path succeeds). -/
theorem unchecked_access_under_presence (c : Bool) (w : optional_reference c) (T : Type)
    (h : Heap T) (hp : w.has_ref = true) :
    ∃ a : Addr, w.m_ptr = some a ∧ w.star = some a ∧ w.starRead h = some (h a) ∧
      w.arrow = some a ∧ w.starAssert = true ∧ w.arrowAssert = true ∧
      w.ref = Except.ok a := by
  obtain ⟨p⟩ := w
  cases p with
  | none => simp [optional_reference.has_ref] at hp
  | some a => exact ⟨a, rfl, rfl, rfl, rfl, rfl, rfl, rfl⟩

/-- Witness for C8 at the concrete present wrapper bound to address 3, with memory
holding 42 everywhere. -/
theorem unchecked_access_under_presence_witness :
    ∃ a : Addr, (optional_reference.mkRef false 3).m_ptr = some a ∧
      (optional_reference.mkRef false 3).star = some a ∧
      (optional_reference.mkRef false 3).starRead (fun _ => (42 : Nat)) =
        some ((fun _ => (42 : Nat)) a) ∧
      (optional_reference.mkRef false 3).arrow = some a ∧
      (optional_reference.mkRef false 3).starAssert = true ∧
      (optional_reference.mkRef false 3).arrowAssert = true ∧
      (optional_reference.mkRef false 3).ref = Except.ok a :=
  unchecked_access_under_presence false (optional_reference.mkRef false 3) Nat
    (fun _ => (42 : Nat)) rfl

/-- C9: a default-constructed wrapper and a wrapper constructed from the nullref marker
both report absent, through has_ref and through the boolean conversion alike. -/
theorem empty_constructions_absent (c : Bool) :
    (optional_reference.mkDefault c).has_ref = false ∧
    (optional_reference.mkDefault c).toBool = false ∧
    (optional_reference.mkNullref c nullref).has_ref = false ∧
    (optional_reference.mkNullref c nullref).toBool = false :=
  ⟨rfl, rfl, rfl, rfl⟩

/-- C10: ptr round-trips exactly with construction — a wrapper built from any raw pointer
`p` (null included) has ptr equal to `p`, and a wrapper built from a reference to the
object at address `a` has ptr equal to `some a`; ptr is a total function that validates
nothing and raises nothing. -/
theorem ptr_roundtrip (c : Bool) (p : Ptr) (a : Addr) :
    (optional_reference.mkPtr c p).ptr = p ∧
    (optional_reference.mkRef c a).ptr = some a :=
  ⟨rfl, rfl⟩

end dl
